import Mathlib

/-!
# Verification of the IPython zmq kernel core (pykernel.py, iostream.py)

Shallow embedding of the two source files that contain the kernel protocol
engine:

* `IPython/zmq/iostream.py` — the `OutStream` buffered, request-tagged
  output sink (`OutStream` below);
* `IPython/zmq/pykernel.py` — the `Kernel` request dispatcher and execution
  engine (`KernelState` and the request handlers below).

Abstractions used throughout (documented per definition):

* the zmq `Session`/socket pair is modelled as an append-only log of sent
  messages carried in the component's state;
* wall-clock time (`time.time()`) is passed explicitly as a rational-number
  argument to each call that reads it;
* Python `exec` over arbitrary source strings is modelled by a small
  statement language (`Stmt`) acting on the user namespace, and
  `code.CommandCompiler` by a source type `Src` that either compiles to a
  statement list or raises;
* Python objects inspected by `object_info_request` are modelled by a tree
  of attributes with docstrings (`PyObj`).
-/

namespace IPyZmq

/-! ## Headers and messages (from `session.py`'s consumed contract) -/

/-- A message header: `{msg_type, session id, counter}` per the data model. -/
structure Header where
  msg_type : String
  session : Nat
  msg_id : Nat
  deriving DecidableEq, Repr

/-- A framed message as seen by `OutStream.set_parent`: only its header is
consumed there. -/
structure ZMsg where
  header : Header
  deriving DecidableEq, Repr

/-- Modelled from the spec: `session.py` is not under `src/`; the spec says
`set_parent(request)` updates `parent_header` to the header of `request`,
i.e. `extract_header` projects the header out of a framed message. -/
def extract_header (m : ZMsg) : Header := m.header

/-! ## OutStream (`iostream.py`) -/

/-- Python exceptions raised by `OutStream` methods:
`ValueError('I/O operation on closed file')` and
`IOError('Read not supported on a write only stream.')`. -/
inductive StreamExc where
  | valueError (msg : String)
  | ioError (msg : String)
  deriving DecidableEq, Repr

/-- The `ValueError` raised on a closed stream. -/
def streamClosed : StreamExc := .valueError "I/O operation on closed file"

/-- The `IOError` raised by every read operation. -/
def readRefused : StreamExc := .ioError "Read not supported on a write only stream."

/-- An outgoing `stream` message: content `{name, data}` plus the parent
header it was tagged with (`none` models the initial empty dict `{}`). -/
structure StreamMsg where
  name : String
  data : String
  parent : Option Header
  deriving DecidableEq, Repr

/-- State of `OutStream`. `pub_socket_open` models `self.pub_socket is None`
(closed ⇔ `false`); `buffer` is the `StringIO` contents; `start` is
`self._start` (−1 when no unflushed write); `sent` is the log of `stream`
messages pushed through `session.send` on the pub socket. -/
structure OutStream where
  name : String
  parent_header : Option Header
  pub_socket_open : Bool
  buffer : String
  start : ℚ
  sent : List StreamMsg
  deriving DecidableEq, Repr

/-- The flush threshold `flush_interval = 0.05` seconds. -/
def flushInterval : ℚ := 1 / 20

/-- Constructor `OutStream.__init__(session, pub_socket, name)`: fresh parent header
`{}`, fresh buffer (`_new_buffer`: empty buffer, `_start = -1`). -/
def OutStream.mkNew (name : String) : OutStream :=
  { name := name, parent_header := none, pub_socket_open := true,
    buffer := "", start := -1, sent := [] }

/-- Method `OutStream.set_parent(parent)`: `self.parent_header = extract_header(parent)`. -/
def OutStream.set_parent (st : OutStream) (parent : ZMsg) : OutStream :=
  { st with parent_header := some (extract_header parent) }

/-- Method `OutStream.close()`: `self.pub_socket = None`. -/
def OutStream.close (st : OutStream) : OutStream :=
  { st with pub_socket_open := false }

/-- Method `OutStream.flush()`: raise on a closed stream; otherwise send the
buffered data as a `stream` message `{name, data}` tagged with
`parent_header` if the buffer is non-empty (Python truthiness of `data`),
then recreate the buffer (`_new_buffer`: empty buffer, `_start = -1`);
an empty buffer sends nothing and changes nothing. -/
def OutStream.flush (st : OutStream) : Except StreamExc OutStream :=
  if st.pub_socket_open = false then
    .error streamClosed
  else
    if st.buffer = "" then
      .ok st
    else
      .ok { st with
        sent := st.sent ++ [{ name := st.name, data := st.buffer, parent := st.parent_header }],
        buffer := "", start := -1 }

/-- Method `OutStream.write(string)` called at wall-clock time `t`
(`current_time = time.time()`): raise on a closed stream; otherwise append
to the buffer; if `self._start <= 0` record `t` as the window start,
else if `current_time - self._start > self.flush_interval` flush. -/
def OutStream.write (st : OutStream) (s : String) (t : ℚ) : Except StreamExc OutStream :=
  if st.pub_socket_open = false then
    .error streamClosed
  else
    let st1 : OutStream := { st with buffer := st.buffer ++ s }
    if st1.start ≤ 0 then
      .ok { st1 with start := t }
    else if flushInterval < t - st1.start then
      st1.flush
    else
      .ok st1

/-- Method `OutStream.read(size=-1)`: always raises. -/
def OutStream.read (st : OutStream) (size : Int) : Except StreamExc String :=
  .error readRefused

/-- Method `OutStream.readline(size=-1)`: always raises. -/
def OutStream.readline (st : OutStream) (size : Int) : Except StreamExc String :=
  .error readRefused

/-- Method `OutStream.__next__()` (iteration): always raises. -/
def OutStream.next (st : OutStream) : Except StreamExc String :=
  .error readRefused

/-- A sequence of `write` calls, each with its own wall-clock time; stops at
the first raised exception (models consecutive calls to `write`). -/
def OutStream.writeAll (st : OutStream) : List (String × ℚ) → Except StreamExc OutStream
  | [] => .ok st
  | (s, t) :: rest =>
    match st.write s t with
    | .ok st1 => st1.writeAll rest
    | .error e => .error e

/-! ## Python exec model (for `exec(comp_code, self.user_ns, self.user_ns)`)

The kernel executes arbitrary Python against `user_ns`. We embed the
fragment of Python the claims exercise: assignments of integer literals,
bare name-expression statements (which raise `NameError` when unbound) and
explicit raises. Python semantics that matter here and are preserved:
module-scope `exec` reads and writes the same mapping, updates it in place,
and mutations made before a raised exception persist. -/

/-- A Python exception: type name and value string. -/
structure PyExc where
  ename : String
  evalue : String
  deriving DecidableEq, Repr

/-- The user namespace `user_ns`: a name-to-value mapping (later bindings
shadow earlier ones, mirroring dict update). -/
abbrev PyNs := List (String × Int)

/-- Dict lookup in `user_ns`. -/
def PyNs.find (ns : PyNs) (x : String) : Option Int :=
  List.lookup x ns

/-- One statement of the embedded Python fragment. -/
inductive Stmt where
  | assign (x : String) (v : Int)
  | exprName (x : String)
  | raiseExc (e : PyExc)
  deriving DecidableEq, Repr

/-- A compiled code object: a statement list. -/
abbrev Prog := List Stmt

/-- Source code handed to the kernel: either source that compiles to a
program, or source on which `code.CommandCompiler` raises (a
syntax/overflow/value/type/memory error with the given name and value). -/
inductive Src where
  | valid (p : Prog)
  | invalid (ename evalue : String)
  deriving DecidableEq, Repr

/-- Modelled from the spec: `self.compiler(code, '<zmq-kernel>')` — the
standard-library `code.CommandCompiler` is not part of this repository; the
spec says compilation either yields a code object or fails with a
syntax-class error that the handler catches. -/
def compile : Src → Except PyExc Prog
  | .valid p => .ok p
  | .invalid en ev => .error { ename := en, evalue := ev }

/-- Execute one statement against the namespace. -/
def execStmt (ns : PyNs) : Stmt → Except PyExc PyNs
  | .assign x v => .ok ((x, v) :: ns)
  | .exprName x =>
    match ns.find x with
    | some _ => .ok ns
    | none => .error { ename := "NameError", evalue := "name " ++ x ++ " is not defined" }
  | .raiseExc e => .error e

/-- Run a program: returns the namespace after running as far as possible
(in-place mutations before an exception persist) and the exception, if any.
Models `exec(comp_code, self.user_ns, self.user_ns)`. -/
def execProg (ns : PyNs) : Prog → PyNs × Option PyExc
  | [] => (ns, none)
  | s :: rest =>
    match execStmt ns s with
    | .ok ns1 => execProg ns1 rest
    | .error e => (ns, some e)

/-- The compile-then-exec pipeline of `execute_request`'s `try` block:
a compile error leaves the namespace untouched; otherwise run the program. -/
def runSrc (ns : PyNs) (code : Src) : PyNs × Option PyExc :=
  match compile code with
  | .error e => (ns, some e)
  | .ok p => execProg ns p

/-- Python `traceback.format_exception(etype, evalue, tb)`, abstracted to a
deterministic rendering of the exception (the claims never inspect it). -/
def tbOf (e : PyExc) : List String :=
  ["Traceback (most recent call last):", e.ename ++ ": " ++ e.evalue]

/-! ## Kernel (`pykernel.py`) -/

/-- The sockets the kernel sends on: `reply_socket`, `pub_socket`,
`req_socket`. -/
inductive Socket where
  | reply
  | pub
  | req
  deriving DecidableEq, Repr

/-- Content of an inbound request message. `execReq` carries the `code`
field of an `execute_request`; `noCode` models an `execute_request` whose
content lacks `code` (`parent['content']['code']` raises); `completeReq`
carries `line`/`text`; `objectInfoReq` carries `oname` already split on
dots; `other` stands for any further queued request (only its `msg_type`
matters to the abort drain). -/
inductive ReqContent where
  | execReq (code : Src)
  | noCode
  | completeReq (line text : String)
  | objectInfoReq (oname : List String)
  | other
  deriving DecidableEq, Repr

/-- An inbound message: its `msg_type` and content. (Identity routing and
the parent-header echo on outbound messages are not tracked: no claim
inspects them on the kernel side.) -/
structure Msg where
  msg_type : String
  content : ReqContent
  deriving DecidableEq, Repr

/-- Content of an outbound message, as built by the handlers:
`pyinC code` is `{code}`; `statusOk` is `{status:'ok', payload:{}}`;
`statusError` is `{status:'error', ename, evalue, traceback}` (used for both
`pyerr` and the error `execute_reply`); `statusAborted` is
`{status:'aborted'}`; `completeReplyC` is `{matches, status:'ok'}`;
`objectInfoReplyC` is `{docstring}`. -/
inductive OutContent where
  | pyinC (code : Src)
  | statusOk
  | statusError (ename evalue : String) (tb : List String)
  | statusAborted
  | completeReplyC (ms : List String)
  | objectInfoReplyC (docstring : String)
  deriving DecidableEq, Repr

/-- One outbound message: socket, `msg_type`, content. -/
structure Sent where
  socket : Socket
  msg_type : String
  content : OutContent
  deriving DecidableEq, Repr

/-- Kernel state: `user_ns` and `history` from `Kernel.__init__`, plus the
log of messages pushed through `self.session.send` (the session/socket
abstraction). -/
structure KernelState where
  user_ns : PyNs
  history : List Src
  sent : List Sent
  deriving DecidableEq, Repr

/-- Constructor `Kernel.__init__`: `self.user_ns = {}`, `self.history = []`. -/
def KernelState.mkNew : KernelState :=
  { user_ns := [], history := [], sent := [] }

/-- Model of `self.session.send(socket, msg_type, content, ...)`, recorded in the log. -/
def KernelState.send (st : KernelState) (sock : Socket) (mt : String) (c : OutContent) :
    KernelState :=
  { st with sent := st.sent ++ [{ socket := sock, msg_type := mt, content := c }] }

/-- Everything of `msg_type` before the first `'_'`:
Python `msg_type.split('_')[0]`. -/
def splitHead : List Char → List Char
  | [] => []
  | c :: rest => if c = '_' then [] else c :: splitHead rest

/-- Python `msg_type.split('_')[0] + '_reply'`, the reply type used when aborting. -/
def abortReplyType (mt : String) : String :=
  String.mk (splitHead mt.data) ++ "_reply"

/-- The `{status:'aborted'}` reply `_abort_queue` sends for one queued
message. -/
def abortSent (m : Msg) : Sent :=
  { socket := .reply, msg_type := abortReplyType m.msg_type, content := .statusAborted }

/-- Method `Kernel._abort_queue(self)`: non-blocking `recv` loop. The inbound
channel is modelled by the list of messages pending on the reply socket, in
arrival order; when it is exhausted `recv` raises `zmq.ZMQError` with
`EAGAIN` and the loop breaks. Each received message gets a
`{status:'aborted'}` reply of type `msg_type.split('_')[0] + '_reply'`
(the `time.sleep(0.1)` between drains has no observable effect here). -/
def KernelState.abort_queue (st : KernelState) : List Msg → KernelState
  | [] => st
  | m :: rest => (st.send .reply (abortReplyType m.msg_type) .statusAborted).abort_queue rest

/-- Method `Kernel.execute_request(self, ident, parent)` with `pending` the
messages queued on the inbound channel (consumed only by `_abort_queue`).
Faithful to the source: a content without `code` is logged and dropped
(no reply); `pyin` is published before compiling; compile and exec share
one `try`, whose `except` publishes `pyerr` and makes the error reply
content; otherwise the reply content is `{status:'ok', payload:{}}`; the
reply is sent on the reply socket; if its status is `'error'` the abort
queue is drained. (The `raw_input`/`set_parent` plumbing and the
stdout/stderr flushes act on the stream objects, which are modelled
separately by `OutStream`; they do not touch `user_ns`, `history` or the
kernel's own send log.) -/
def KernelState.execute_request (st : KernelState) (pending : List Msg) (parent : Msg) :
    KernelState :=
  match parent.content with
  | .execReq code =>
    let st := st.send .pub "pyin" (.pyinC code)
    match compile code with
    | .error e =>
      let st := st.send .pub "pyerr" (.statusError e.ename e.evalue (tbOf e))
      let st := st.send .reply "execute_reply" (.statusError e.ename e.evalue (tbOf e))
      st.abort_queue pending
    | .ok p =>
      let r := execProg st.user_ns p
      let st := { st with user_ns := r.1 }
      match r.2 with
      | some e =>
        let st := st.send .pub "pyerr" (.statusError e.ename e.evalue (tbOf e))
        let st := st.send .reply "execute_reply" (.statusError e.ename e.evalue (tbOf e))
        st.abort_queue pending
      | none => st.send .reply "execute_reply" .statusOk
  | _ => st

/-- Method `Kernel.complete_request(self, ident, parent)`. The completer
(`KernelCompleter`, constructed over `user_ns`) is an external collaborator
passed as a function that may raise. The handler builds
`{'matches': self._complete(parent), 'status': 'ok'}` and sends it; there
is no `try`/`except`, so an exception from `_complete` propagates out of
the handler (and `start()`'s dispatch loop does not catch it either).
`_complete` reads `msg.content.line`/`msg.content.text`, raising
`AttributeError` on a content of another shape. -/
def KernelState.complete_request (st : KernelState)
    (completer : PyNs → String → String → Except PyExc (List String)) (parent : Msg) :
    Except PyExc KernelState :=
  match parent.content with
  | .completeReq line text =>
    match completer st.user_ns line text with
    | .ok ms => .ok (st.send .reply "complete_reply" (.completeReplyC ms))
    | .error e => .error e
  | _ => .error { ename := "AttributeError", evalue := "no line/text in content" }

/-! ## Python objects for introspection (`_object_info` / `_symbol_from_context`)

`object_info_request` resolves a dotted name against namespaces of live
Python objects. We model an object as its docstring (`getattr(o,
'__doc__', '')`) together with its attribute mapping (`getattr(o, name,
None)`). -/

/-- A Python object as seen by the introspection code: a docstring and
named attributes. -/
inductive PyObj where
  | obj (doc : String) (attrs : List (String × PyObj))

/-- The object's `__doc__`. -/
def PyObj.docOf : PyObj → String
  | .obj d _ => d

/-- Python `getattr(o, name, None)`. -/
def PyObj.getattr : PyObj → String → Option PyObj
  | .obj _ attrs, n => attrs.lookup n

/-- A namespace of live objects (`user_ns` or `__builtin__.__dict__`) as
consumed by `_symbol_from_context`. -/
abbrev ObjNs := List (String × PyObj)

/-- The `for i, name in enumerate(context)` loop of `_symbol_from_context`:
follow attributes from `sym`; at the first unresolved name return the
deepest resolved symbol and the remaining context `context[i:]`. -/
def symbolWalk (sym : PyObj) : List String → PyObj × List String
  | [] => (sym, [])
  | n :: rest =>
    match sym.getattr n with
    | none => (sym, n :: rest)
    | some s => symbolWalk s rest

/-- Method `Kernel._symbol_from_context(self, context)`: empty context yields
`(None, context)`; the root name is looked up in `user_ns` then in
builtins, and failure yields `(None, context)`; otherwise walk the
remaining attribute path. -/
def symbol_from_context (user_ns builtins : ObjNs) :
    List String → Option PyObj × List String
  | [] => (none, [])
  | base :: rest =>
    match (user_ns.lookup base).or (builtins.lookup base) with
    | none => (none, base :: rest)
    | some sym =>
      let w := symbolWalk sym rest
      (some w.1, w.2)

/-- Method `Kernel._object_info(self, context)`: the `docstring` field of the
reply content — the symbol's `__doc__` only when a symbol was found *and*
no context is left over, else `''`. -/
def object_info (user_ns builtins : ObjNs) (context : List String) : String :=
  match symbol_from_context user_ns builtins context with
  | (some sym, []) => sym.docOf
  | _ => ""

/-- Follow the whole attribute chain from `sym` or fail. -/
def resolveChain (sym : PyObj) : List String → Option PyObj
  | [] => some sym
  | n :: rest =>
    match sym.getattr n with
    | none => none
    | some s => resolveChain s rest

/-- Resolution of the *entire* dotted path, written from the amended
reading of the spec: a symbol is produced only when every segment resolves. -/
def resolveFull (user_ns builtins : ObjNs) : List String → Option PyObj
  | [] => none
  | base :: rest =>
    match (user_ns.lookup base).or (builtins.lookup base) with
    | none => none
    | some sym => resolveChain sym rest

/-- The error content built by `execute_request`'s `except` clause (used
for both the `pyerr` broadcast and the error reply). -/
def errContent (e : PyExc) : OutContent :=
  .statusError e.ename e.evalue (tbOf e)

/-- Concatenation of the texts of a sequence of `write` calls. -/
def concatStrs : List (String × ℚ) → String
  | [] => ""
  | (s, _) :: rest => s ++ concatStrs rest

/-! ## Concrete fixtures for witnesses and counterexamples -/

/-- Exception `ZeroDivisionError`, as raised by `1/0`. -/
def zde : PyExc := { ename := "ZeroDivisionError", evalue := "division by zero" }

/-- Source whose execution raises `ZeroDivisionError` (e.g. `1/0`). -/
def srcRaise : Src := .valid [.raiseExc zde]

/-- Source the compiler rejects (`SyntaxError`). -/
def srcSyn : Src := .invalid "SyntaxError" "invalid syntax"

/-- An `execute_request` whose code raises at run time. -/
def msgRaise : Msg := { msg_type := "execute_request", content := .execReq srcRaise }

/-- An `execute_request` whose code fails to compile. -/
def msgSyn : Msg := { msg_type := "execute_request", content := .execReq srcSyn }

/-- An `execute_request` executing `x = 1`. -/
def msgAssign : Msg := { msg_type := "execute_request", content := .execReq (.valid [.assign "x" 1]) }

/-- A request sitting in the inbound backlog. -/
def queuedMsg : Msg := { msg_type := "execute_request", content := .other }

/-- Introspection fixture: the second-level object, with a docstring. -/
def objB : PyObj := .obj "bdoc" []

/-- Introspection fixture: the root object, whose attribute `b` is `objB`
and which has no attribute `c`. -/
def objA : PyObj := .obj "adoc" [("b", objB)]

/-- Introspection fixture namespace: `a ↦ objA`. -/
def exObjNs : ObjNs := [("a", objA)]

/-- A completer that raises. -/
def badCompleter : PyNs → String → String → Except PyExc (List String) :=
  fun _ _ _ => .error { ename := "RuntimeError", evalue := "completer blew up" }

/-- A completer that succeeds with one match. -/
def goodCompleter : PyNs → String → String → Except PyExc (List String) :=
  fun _ _ _ => .ok ["print"]

/-- A `complete_request` message. -/
def msgComplete : Msg := { msg_type := "complete_request", content := .completeReq "pri" "pri" }

/-- A parent request message for stream tagging. -/
def pZMsg : ZMsg := { header := { msg_type := "execute_request", session := 7, msg_id := 3 } }

/-- A fresh stdout stream. -/
def stdoutS : OutStream := OutStream.mkNew "stdout"

/-- A closed stream. -/
def closedS : OutStream := stdoutS.close

/-! ## Theorems -/

/-- Lemma: `_abort_queue` only appends one `{status:'aborted'}` reply per pending
message, in arrival order; `user_ns` and `history` are untouched. -/
theorem abort_queue_spec (q : List Msg) (st : KernelState) :
    st.abort_queue q = { st with sent := st.sent ++ q.map abortSent } := by
  induction q generalizing st with
  | nil => simp [KernelState.abort_queue]
  | cons m rest ih =>
    simp [KernelState.abort_queue, KernelState.send, ih, abortSent]

/-- C1: for every `execute_request` that ends with an error reply (compile
or run-time error), the handler publishes `pyin` and `pyerr`, sends the
error reply, and then replies `{status:'aborted'}` to every request queued
on the inbound channel before the error, in arrival order; the drain adds
exactly those replies (stopping only once the channel has no more pending
messages) and executes none of the queued code — the namespace is exactly
the one left by the erroring request itself. -/
theorem execute_request_error_drains_queue
    (st : KernelState) (pending : List Msg) (parent : Msg) (code : Src) (e : PyExc)
    (hcode : parent.content = .execReq code)
    (herr : (runSrc st.user_ns code).2 = some e) :
    (st.execute_request pending parent).sent =
      st.sent ++
        [{ socket := .pub, msg_type := "pyin", content := .pyinC code },
         { socket := .pub, msg_type := "pyerr", content := errContent e },
         { socket := .reply, msg_type := "execute_reply", content := errContent e }] ++
        pending.map abortSent ∧
    (st.execute_request pending parent).user_ns = (runSrc st.user_ns code).1 := by
  cases hc : compile code with
  | error e' =>
    have he : e' = e := by simpa [runSrc, hc] using herr
    subst he
    constructor
    · simp [KernelState.execute_request, hcode, hc, KernelState.send,
        abort_queue_spec, errContent]
    · simp [KernelState.execute_request, hcode, hc, KernelState.send,
        abort_queue_spec, runSrc]
  | ok p =>
    have hr : (execProg st.user_ns p).2 = some e := by simpa [runSrc, hc] using herr
    constructor
    · simp [KernelState.execute_request, hcode, hc, hr, KernelState.send,
        abort_queue_spec, errContent]
    · simp [KernelState.execute_request, hcode, hc, hr, KernelState.send,
        abort_queue_spec, runSrc]

/-- Witness for C1 at a concrete input: the kernel at start-up, one queued
request, and code raising `ZeroDivisionError`. -/
theorem execute_request_error_drains_queue_witness :
    (KernelState.mkNew.execute_request [queuedMsg] msgRaise).sent =
      KernelState.mkNew.sent ++
        [{ socket := .pub, msg_type := "pyin", content := .pyinC srcRaise },
         { socket := .pub, msg_type := "pyerr", content := errContent zde },
         { socket := .reply, msg_type := "execute_reply", content := errContent zde }] ++
        [queuedMsg].map abortSent ∧
    (KernelState.mkNew.execute_request [queuedMsg] msgRaise).user_ns =
      (runSrc KernelState.mkNew.user_ns srcRaise).1 :=
  execute_request_error_drains_queue KernelState.mkNew [queuedMsg] msgRaise srcRaise zde
    rfl rfl

/-- C3 counterexample: the claim says a compile error triggers no
abort-queue drain, but with one request queued on the inbound channel a
compile failure is followed by a `{status:'aborted'}` reply to that queued
request — the drain runs exactly as for a run-time error. -/
theorem compile_error_abort_counterexample :
    (KernelState.mkNew.execute_request [queuedMsg] msgSyn).sent =
      [{ socket := .pub, msg_type := "pyin", content := .pyinC srcSyn },
       { socket := .pub, msg_type := "pyerr",
         content := errContent { ename := "SyntaxError", evalue := "invalid syntax" } },
       { socket := .reply, msg_type := "execute_reply",
         content := errContent { ename := "SyntaxError", evalue := "invalid syntax" } },
       { socket := .reply, msg_type := "execute_reply", content := .statusAborted }] :=
  rfl

/-- C3 (amended): an `execute_request` whose code fails to compile
publishes the failure (`pyerr`), sends an error reply, and does not execute
the code (`user_ns` unchanged); because the reply status is `'error'`, the
abort-queue drain *is* triggered, exactly as for a run-time error. -/
theorem compile_error_reports_and_drains
    (st : KernelState) (pending : List Msg) (parent : Msg) (en ev : String)
    (hcode : parent.content = .execReq (.invalid en ev)) :
    (st.execute_request pending parent).sent =
      st.sent ++
        [{ socket := .pub, msg_type := "pyin", content := .pyinC (.invalid en ev) },
         { socket := .pub, msg_type := "pyerr",
           content := errContent { ename := en, evalue := ev } },
         { socket := .reply, msg_type := "execute_reply",
           content := errContent { ename := en, evalue := ev } }] ++
        pending.map abortSent ∧
    (st.execute_request pending parent).user_ns = st.user_ns := by
  constructor <;>
    simp [KernelState.execute_request, hcode, compile, KernelState.send,
      abort_queue_spec, errContent]

/-- Witness for the amended C3 at a concrete input: start-up kernel, one
queued request, `SyntaxError` source. -/
theorem compile_error_reports_and_drains_witness :
    (KernelState.mkNew.execute_request [queuedMsg] msgSyn).sent =
      KernelState.mkNew.sent ++
        [{ socket := .pub, msg_type := "pyin", content := .pyinC (.invalid "SyntaxError" "invalid syntax") },
         { socket := .pub, msg_type := "pyerr",
           content := errContent { ename := "SyntaxError", evalue := "invalid syntax" } },
         { socket := .reply, msg_type := "execute_reply",
           content := errContent { ename := "SyntaxError", evalue := "invalid syntax" } }] ++
        [queuedMsg].map abortSent ∧
    (KernelState.mkNew.execute_request [queuedMsg] msgSyn).user_ns =
      KernelState.mkNew.user_ns :=
  compile_error_reports_and_drains KernelState.mkNew [queuedMsg] msgSyn
    "SyntaxError" "invalid syntax" rfl

/-- C9 counterexample: a successfully handled `execute_request` (its reply
is `{status:'ok'}`) leaves `history` empty — the executed code is never
appended, contradicting the claim that every successful execution appends
to `history`. -/
theorem history_never_appended_counterexample :
    (KernelState.mkNew.execute_request [] msgAssign).sent =
      [{ socket := .pub, msg_type := "pyin", content := .pyinC (.valid [.assign "x" 1]) },
       { socket := .reply, msg_type := "execute_reply", content := .statusOk }] ∧
    (KernelState.mkNew.execute_request [] msgAssign).history = [] :=
  ⟨rfl, rfl⟩

/-- C9 (amended): `history` is dead state — `Kernel.__init__` creates it
empty and `execute_request` never modifies it on any path (so it is
trivially never shrunk or reordered, but executed inputs are never appended
either). -/
theorem execute_request_never_touches_history
    (st : KernelState) (pending : List Msg) (parent : Msg) :
    (st.execute_request pending parent).history = st.history := by
  cases hpc : parent.content with
  | execReq code =>
    cases hc : compile code with
    | error e =>
      simp [KernelState.execute_request, hpc, hc, KernelState.send, abort_queue_spec]
    | ok p =>
      cases hr : (execProg st.user_ns p).2 with
      | some e =>
        simp [KernelState.execute_request, hpc, hc, hr, KernelState.send, abort_queue_spec]
      | none =>
        simp [KernelState.execute_request, hpc, hc, hr, KernelState.send]
  | noCode => simp [KernelState.execute_request, hpc]
  | completeReq line text => simp [KernelState.execute_request, hpc]
  | objectInfoReq oname => simp [KernelState.execute_request, hpc]
  | other => simp [KernelState.execute_request, hpc]

/-- The `for` loop of `_symbol_from_context` finds the full-path resolution
exactly when it consumes the whole context. -/
theorem resolveChain_eq_symbolWalk (rest : List String) (sym : PyObj) :
    resolveChain sym rest =
      match symbolWalk sym rest with
      | (s, []) => some s
      | _ => none := by
  induction rest generalizing sym with
  | nil => simp [resolveChain, symbolWalk]
  | cons n rest ih =>
    cases hg : sym.getattr n with
    | none => simp [resolveChain, symbolWalk, hg]
    | some s => simp [resolveChain, symbolWalk, hg, ih]

/-- C2 counterexample: for the dotted name `a.b.c` where `a` resolves in
`user_ns` and `a.b` resolves but `a.b.c` does not, the deepest resolved
symbol is `objB` with docstring `"bdoc"`, yet the reply's docstring is the
empty string — not the deepest symbol's docstring, and empty even though
the root name resolved. -/
theorem object_info_partial_counterexample :
    symbol_from_context exObjNs [] ["a", "b", "c"] = (some objB, ["c"]) ∧
    objB.docOf = "bdoc" ∧
    object_info exObjNs [] ["a", "b", "c"] = "" :=
  ⟨rfl, rfl, rfl⟩

/-- C2 (amended): the reply's docstring is the docstring of the resolved
object exactly when *every* segment of the dotted name resolves; it is the
empty string whenever resolution stops early — at the root or at any later
attribute segment. -/
theorem object_info_eq_full_resolution
    (user_ns builtins : ObjNs) (context : List String) :
    object_info user_ns builtins context =
      match resolveFull user_ns builtins context with
      | some sym => sym.docOf
      | none => "" := by
  cases context with
  | nil => simp [object_info, symbol_from_context, resolveFull]
  | cons base rest =>
    cases hb : (user_ns.lookup base).or (builtins.lookup base) with
    | none => simp [object_info, symbol_from_context, resolveFull, hb]
    | some sym =>
      rw [object_info, resolveFull]
      simp only [hb]
      rw [symbol_from_context]
      simp only [hb]
      rw [resolveChain_eq_symbolWalk]
      cases hw : symbolWalk sym rest with
      | mk s leftover =>
        cases leftover with
        | nil => simp
        | cons n rest2 => simp

/-- C4: the user namespace persists across requests — after an
`execute_request` that runs `x = v`, the binding `x ↦ v` is in `user_ns`,
and a second `execute_request` that evaluates `x` sees it (it replies
`{status:'ok'}` rather than raising `NameError`) and leaves the namespace
as it was. -/
theorem user_ns_persists_across_requests
    (st st1 : KernelState) (q1 q2 : List Msg) (x : String) (v : Int)
    (h1 : st1 = st.execute_request q1
        { msg_type := "execute_request", content := .execReq (.valid [.assign x v]) }) :
    PyNs.find st1.user_ns x = some v ∧
    (st1.execute_request q2
        { msg_type := "execute_request", content := .execReq (.valid [.exprName x]) }).sent =
      st1.sent ++
        [{ socket := .pub, msg_type := "pyin", content := .pyinC (.valid [.exprName x]) },
         { socket := .reply, msg_type := "execute_reply", content := .statusOk }] ∧
    (st1.execute_request q2
        { msg_type := "execute_request", content := .execReq (.valid [.exprName x]) }).user_ns =
      st1.user_ns := by
  subst h1
  have hns : (st.execute_request q1
      { msg_type := "execute_request", content := .execReq (.valid [.assign x v]) }).user_ns =
      (x, v) :: st.user_ns := by
    simp [KernelState.execute_request, compile, execProg, execStmt, KernelState.send]
  have hfind : PyNs.find ((x, v) :: st.user_ns) x = some v := by
    simp [PyNs.find, List.lookup]
  refine ⟨by rw [hns]; exact hfind, ?_, ?_⟩ <;>
    simp [KernelState.execute_request, compile, execProg, execStmt, hns, hfind,
      KernelState.send, PyNs.find]

/-- Witness for C4 at a concrete input: start-up kernel, `x = 1` then `x`. -/
theorem user_ns_persists_across_requests_witness :
    PyNs.find (KernelState.mkNew.execute_request [] msgAssign).user_ns "x" = some 1 ∧
    ((KernelState.mkNew.execute_request [] msgAssign).execute_request []
        { msg_type := "execute_request", content := .execReq (.valid [.exprName "x"]) }).sent =
      (KernelState.mkNew.execute_request [] msgAssign).sent ++
        [{ socket := .pub, msg_type := "pyin", content := .pyinC (.valid [.exprName "x"]) },
         { socket := .reply, msg_type := "execute_reply", content := .statusOk }] ∧
    ((KernelState.mkNew.execute_request [] msgAssign).execute_request []
        { msg_type := "execute_request", content := .execReq (.valid [.exprName "x"]) }).user_ns =
      (KernelState.mkNew.execute_request [] msgAssign).user_ns :=
  user_ns_persists_across_requests KernelState.mkNew
    (KernelState.mkNew.execute_request [] msgAssign) [] [] "x" 1 rfl

/-- C7 counterexample: a completer that raises makes `complete_request`
itself raise — the handler neither replies `{matches: [], status:'ok'}`
nor catches the error, so the exception reaches the dispatch loop. -/
theorem complete_request_crash_counterexample :
    KernelState.mkNew.complete_request badCompleter msgComplete =
      .error { ename := "RuntimeError", evalue := "completer blew up" } :=
  rfl

/-- C7 (amended): `complete_request` replies `{matches, status:'ok'}` when
the completer succeeds; but there is no `try`/`except` around `_complete`,
so an error raised by the completer propagates uncaught out of the handler
(and `start()`'s loop does not catch it either) instead of degrading to an
empty match list. -/
theorem complete_request_ok_or_propagates
    (st : KernelState) (completer : PyNs → String → String → Except PyExc (List String))
    (line text : String) :
    (∀ ms, completer st.user_ns line text = .ok ms →
      st.complete_request completer
          { msg_type := "complete_request", content := .completeReq line text } =
        .ok (st.send .reply "complete_reply" (.completeReplyC ms))) ∧
    (∀ e, completer st.user_ns line text = .error e →
      st.complete_request completer
          { msg_type := "complete_request", content := .completeReq line text } =
        .error e) := by
  constructor
  · intro ms h
    simp [KernelState.complete_request, h]
  · intro e h
    simp [KernelState.complete_request, h]

/-- Witness for the amended C7 at concrete inputs: a succeeding completer
produces the ok reply; a raising completer makes the handler raise. -/
theorem complete_request_ok_or_propagates_witness :
    KernelState.mkNew.complete_request goodCompleter
        { msg_type := "complete_request", content := .completeReq "pri" "pri" } =
      .ok (KernelState.mkNew.send .reply "complete_reply" (.completeReplyC ["print"])) ∧
    KernelState.mkNew.complete_request badCompleter
        { msg_type := "complete_request", content := .completeReq "pri" "pri" } =
      .error { ename := "RuntimeError", evalue := "completer blew up" } :=
  ⟨(complete_request_ok_or_propagates KernelState.mkNew goodCompleter "pri" "pri").1
      ["print"] rfl,
   (complete_request_ok_or_propagates KernelState.mkNew badCompleter "pri" "pri").2
      { ename := "RuntimeError", evalue := "completer blew up" } rfl⟩

/-- Appending a non-empty string never yields the empty string (Python
truthiness of the flushed buffer). -/
theorem append_ne_empty (a s : String) (hs : s ≠ "") : a ++ s ≠ "" := by
  intro h
  apply hs
  have hd := congrArg String.data h
  rw [String.data_append] at hd
  have h2 : s.data = [] := (List.append_eq_nil.mp hd).2
  cases s
  simp_all

/-- C5: on an open stream, `set_parent p` then `write text` (non-empty)
then `flush()` sends exactly one `stream` message, whose parent header is
the header extracted from `p` and whose content is the stream's `name` and
the buffered text; the flush that sends resets the buffer and the timing
window (`_start = -1`). And `flush()` on an open stream with an empty
buffer sends nothing and changes nothing. -/
theorem set_parent_write_flush_one_message
    (st : OutStream) (p : ZMsg) (s : String) (t : ℚ)
    (hopen : st.pub_socket_open = true) (hs : s ≠ "") :
    (((st.set_parent p).write s t).bind OutStream.flush) =
      .ok { st with parent_header := some (extract_header p),
                    buffer := "", start := -1,
                    sent := st.sent ++ [{ name := st.name, data := st.buffer ++ s,
                                          parent := some (extract_header p) }] } ∧
    (st.buffer = "" → st.flush = .ok st) := by
  constructor
  · have hbuf : st.buffer ++ s ≠ "" := append_ne_empty st.buffer s hs
    obtain ⟨nm, ph, po, bf, sa, se⟩ := st
    simp only [OutStream.pub_socket_open] at hopen
    subst hopen
    simp only at hbuf
    rcases le_or_lt sa 0 with hle | hgt
    · simp [OutStream.set_parent, OutStream.write, OutStream.flush, hle, hbuf,
        Except.bind]
    · rcases le_or_lt (t - sa) flushInterval with hin | hout
      · simp [OutStream.set_parent, OutStream.write, OutStream.flush,
          hgt.not_le, hin.not_lt, hbuf, Except.bind]
      · simp [OutStream.set_parent, OutStream.write, OutStream.flush,
          hgt.not_le, hout, hbuf, Except.bind]
  · intro hb
    simp [OutStream.flush, hopen, hb]

/-- Witness for C5 at a concrete input: a fresh stdout stream, a parent
request, the text `"hello"` written at time 1. -/
theorem set_parent_write_flush_one_message_witness :
    (((stdoutS.set_parent pZMsg).write "hello" 1).bind OutStream.flush) =
      .ok { stdoutS with parent_header := some (extract_header pZMsg),
                         buffer := "", start := -1,
                         sent := stdoutS.sent ++
                           [{ name := stdoutS.name, data := stdoutS.buffer ++ "hello",
                              parent := some (extract_header pZMsg) }] } ∧
    (stdoutS.buffer = "" → stdoutS.flush = .ok stdoutS) :=
  set_parent_write_flush_one_message stdoutS pZMsg "hello" 1 rfl (by decide)

/-- Within-window writes: once the window start `t0` is recorded, any
sequence of writes whose times stay within `flush_interval` of `t0` only
accumulates in the buffer — no message is sent and the window is kept. -/
theorem writeAll_within_window
    (l : List (String × ℚ)) (st : OutStream) (t0 : ℚ)
    (hopen : st.pub_socket_open = true) (hpos : 0 < t0) (hstart : st.start = t0)
    (hwin : ∀ q ∈ l, q.2 - t0 ≤ flushInterval) :
    st.writeAll l = .ok { st with buffer := st.buffer ++ concatStrs l } := by
  induction l generalizing st with
  | nil => simp [OutStream.writeAll, concatStrs, String.append_empty]
  | cons q rest ih =>
    obtain ⟨s, t⟩ := q
    have h1 : t - t0 ≤ flushInterval := hwin (s, t) (by simp)
    have hw : st.write s t = .ok { st with buffer := st.buffer ++ s } := by
      simp [OutStream.write, hopen, hstart, hpos.not_le, h1.not_lt]
    have ihr := ih { st with buffer := st.buffer ++ s } hopen hstart
      (fun q hq => hwin q (List.mem_cons_of_mem _ hq))
    simp only [OutStream.writeAll, hw, ihr, concatStrs, String.append_assoc]

/-- C6: `write` appends to the buffer and manages the flush window as
claimed — (1) a write with no unflushed predecessor (`_start ≤ 0`) records
its time as the window start and does not flush (nothing is sent); (2) a
sequence of writes all within `flush_interval` of the recorded window
start produces no automatic flush; (3) a write more than `flush_interval`
after the window start triggers exactly one immediate flush: one message
carrying the whole buffer, after which buffer and window are reset. -/
theorem write_window_discipline :
    (∀ (st : OutStream) (s : String) (t : ℚ), st.pub_socket_open = true →
      st.start ≤ 0 →
      st.write s t = .ok { st with buffer := st.buffer ++ s, start := t }) ∧
    (∀ (st : OutStream) (t0 : ℚ) (l : List (String × ℚ)), st.pub_socket_open = true →
      0 < t0 → st.start = t0 → (∀ q ∈ l, q.2 - t0 ≤ flushInterval) →
      st.writeAll l = .ok { st with buffer := st.buffer ++ concatStrs l }) ∧
    (∀ (st : OutStream) (s : String) (t : ℚ), st.pub_socket_open = true →
      0 < st.start → flushInterval < t - st.start → s ≠ "" →
      st.write s t = .ok { st with buffer := "", start := -1,
                                   sent := st.sent ++
                                     [{ name := st.name, data := st.buffer ++ s,
                                        parent := st.parent_header }] }) := by
  refine ⟨?_, ?_, ?_⟩
  · intro st s t hopen hle
    simp [OutStream.write, hopen, hle]
  · intro st t0 l hopen hpos hstart hwin
    exact writeAll_within_window l st t0 hopen hpos hstart hwin
  · intro st s t hopen hgt hout hs
    have hbuf : st.buffer ++ s ≠ "" := append_ne_empty st.buffer s hs
    obtain ⟨nm, ph, po, bf, sa, se⟩ := st
    simp only [OutStream.pub_socket_open] at hopen
    subst hopen
    simp only [OutStream.start] at hgt hout
    simp only at hbuf
    simp [OutStream.write, OutStream.flush, hgt.not_le, hout, hbuf]

/-- Witness for C6 at concrete inputs: a first write at time 1 on a fresh
stream records the window; two further writes at times within 1/20 of 1 do
not flush; a write at time 2 (past the window) flushes exactly once. -/
theorem write_window_discipline_witness :
    (stdoutS.write "hi" 1 =
      .ok { stdoutS with buffer := stdoutS.buffer ++ "hi", start := 1 }) ∧
    (OutStream.writeAll { stdoutS with buffer := "hi", start := 1 }
        [("a", 51/50), ("b", 26/25)] =
      .ok { { stdoutS with buffer := "hi", start := 1 } with
            buffer := "hi" ++ concatStrs [("a", 51/50), ("b", 26/25)] }) ∧
    (OutStream.write { stdoutS with buffer := "hiab", start := 1 } "!" 2 =
      .ok { { stdoutS with buffer := "hiab", start := 1 } with
            buffer := "", start := -1,
            sent := stdoutS.sent ++ [{ name := stdoutS.name, data := "hiab" ++ "!",
                                       parent := stdoutS.parent_header }] }) :=
  ⟨write_window_discipline.1 stdoutS "hi" 1 rfl (by show (-1 : ℚ) ≤ 0; norm_num),
   write_window_discipline.2.1 { stdoutS with buffer := "hi", start := 1 } 1
     [("a", 51/50), ("b", 26/25)] rfl (by norm_num) rfl
     (by
       intro q hq
       simp only [List.mem_cons, List.mem_singleton] at hq
       rcases hq with h | h | h
       · rw [h]; show (51 : ℚ)/50 - 1 ≤ flushInterval; norm_num [flushInterval]
       · rw [h]; show (26 : ℚ)/25 - 1 ≤ flushInterval; norm_num [flushInterval]
       · cases h),
   write_window_discipline.2.2 { stdoutS with buffer := "hiab", start := 1 } "!" 2 rfl
     (by show (0 : ℚ) < 1; norm_num)
     (by show flushInterval < 2 - (1 : ℚ); norm_num [flushInterval])
     (by decide)⟩

/-- C8: every `write` and every `flush` on a closed stream raises
`ValueError('I/O operation on closed file')`; and on every stream, open or
closed, `read`, `readline` and iteration (`__next__`) raise
`IOError('Read not supported on a write only stream.')` — the stream is
write-only. -/
theorem closed_and_write_only
    (st stAny : OutStream) (s : String) (t : ℚ) (size : Int)
    (hclosed : st.pub_socket_open = false) :
    st.write s t = .error streamClosed ∧
    st.flush = .error streamClosed ∧
    stAny.read size = .error readRefused ∧
    stAny.readline size = .error readRefused ∧
    stAny.next = .error readRefused := by
  refine ⟨?_, ?_, rfl, rfl, rfl⟩ <;>
    simp [OutStream.write, OutStream.flush, hclosed]

/-- Witness for C8 at concrete inputs: a closed stream for write/flush, an
open stream for the read operations. -/
theorem closed_and_write_only_witness :
    closedS.write "x" 1 = .error streamClosed ∧
    closedS.flush = .error streamClosed ∧
    stdoutS.read (-1) = .error readRefused ∧
    stdoutS.readline (-1) = .error readRefused ∧
    stdoutS.next = .error readRefused :=
  closed_and_write_only closedS stdoutS "x" 1 (-1) rfl

/-- C10: `flush()` checks for a closed stream before looking at the
buffer, so on a closed stream it raises the stream-closed `ValueError`
even when the buffer is empty — the empty-buffer no-op applies only to
open streams. -/
theorem flush_closed_precedes_empty_buffer
    (st : OutStream) (hclosed : st.pub_socket_open = false)
    (hempty : st.buffer = "") :
    st.flush = .error streamClosed := by
  simp [OutStream.flush, hclosed]

/-- Witness for C10 at a concrete input: the closed stream, whose buffer is
empty. -/
theorem flush_closed_precedes_empty_buffer_witness :
    closedS.buffer = "" ∧ closedS.flush = .error streamClosed :=
  ⟨rfl, flush_closed_precedes_empty_buffer closedS rfl rfl⟩

end IPyZmq
